import Mathlib

/-!
Verification of the AI voice detection service (`main.py`).

The development shallowly embeds the service: `b64decodeE` models Python's
`base64.b64decode` on `str` input (non-strict `binascii.a2b_base64`, which
skips characters outside the base64 alphabet), `validateRequest` models the
pydantic schema checks plus the required header, `detect_voice` models the
`/detect` handler including its `try`/`except` chain, and
`simulate_ai_detection` models the placeholder scoring function.

Python runtime primitives that are not part of the repository are abstracted:
the salted builtin `hash` on bytes and strings becomes a `PyHash` parameter
(its salt varies per process), and the value produced by
`random.seed(n); random.uniform(0.1, 0.95)` becomes a function parameter
`u : Int → ℚ` from the seed, constrained by `uniformValid` to land in
`[0.1, 0.95]`.  Python floats are idealised as rationals.
-/

namespace VoiceAPI

/-- Base64 value of a single character (CPython `table_a2b_base64`):
letters, digits, `+`, `/` map to 0..63, everything else is invalid. -/
def b64val (c : Char) : Option Nat :=
  if 'A' ≤ c ∧ c ≤ 'Z' then some (c.toNat - 65)
  else if 'a' ≤ c ∧ c ≤ 'z' then some (c.toNat - 97 + 26)
  else if '0' ≤ c ∧ c ≤ '9' then some (c.toNat - 48 + 52)
  else if c = '+' then some 62
  else if c = '/' then some 63
  else none

/-- Exceptions that the body of `detect_voice`'s `try` block can raise. -/
inductive HandlerExc where
  | binasciiError : HandlerExc
  | valueError (msg : String) : HandlerExc
  | httpException (statusCode : Nat) (detail : String) : HandlerExc
deriving DecidableEq, Repr

/-- Decoding loop of CPython's `binascii.a2b_base64` with `strict_mode=False`:
characters outside the alphabet are skipped, `=` with at least two data
characters in the current quadruple ends decoding once enough padding has
accumulated, and leftover data characters at the end raise `binascii.Error`
(model: `HandlerExc.binasciiError`). -/
def a2b_loop : List Char → Nat → Nat → Nat → List Nat → Except HandlerExc (List Nat)
  | [], quadPos, _, _, acc =>
      if quadPos = 0 then Except.ok acc.reverse else Except.error HandlerExc.binasciiError
  | c :: rest, quadPos, leftchar, pads, acc =>
      if c = '=' then
        if 2 ≤ quadPos then
          if 4 ≤ quadPos + (pads + 1) then Except.ok acc.reverse
          else a2b_loop rest quadPos leftchar (pads + 1) acc
        else a2b_loop rest quadPos leftchar pads acc
      else
        match b64val c with
        | none => a2b_loop rest quadPos leftchar pads acc
        | some v =>
          match quadPos with
          | 0 => a2b_loop rest 1 v 0 acc
          | 1 => a2b_loop rest 2 (v % 16) 0 ((leftchar * 4 + v / 16) :: acc)
          | 2 => a2b_loop rest 3 (v % 4) 0 ((leftchar * 16 + v / 4) :: acc)
          | _ => a2b_loop rest 0 0 0 ((leftchar * 64 + v) :: acc)

/-- Model of `base64.b64decode` applied to a `str`: a non-ASCII character
raises `ValueError` (from `s.encode('ascii')`), otherwise the permissive
`a2b_base64` loop runs.  The result is the decoded byte sequence. -/
def b64decodeE (s : String) : Except HandlerExc (List Nat) :=
  if s.data.all (fun c => c.toNat < 128) then a2b_loop s.data 0 0 0 []
  else Except.error (HandlerExc.valueError "string argument should contain only ASCII characters")

/-- Configured static API key (`VALID_API_KEY` in `main.py`). -/
def VALID_API_KEY : String := "buildathon_2024_secret_key"

/-- Whitelisted languages (`SUPPORTED_LANGUAGES` in `main.py`). -/
def SUPPORTED_LANGUAGES : List String := ["Tamil", "English", "Hindi", "Malayalam", "Telugu"]

/-- Abstraction of Python's builtin `hash` on bytes objects and on strings.
Its output is salted per process (`PYTHONHASHSEED`), so one value of this
structure corresponds to one operating-system process. -/
structure PyHash where
  hashBytes : List Nat → Int
  hashStr : String → Int

/-- Validity of the abstracted PRNG draw: `random.uniform(0.1, 0.95)` always
returns a value in `[0.1, 0.95]`. -/
def uniformValid (u : Int → ℚ) : Prop :=
  ∀ n : Int, 1 / 10 ≤ u n ∧ u n ≤ 95 / 100

/-- Model of `simulate_ai_detection` from `main.py`: hash the first
`min(1000, len(bytes))` bytes and the language, seed the PRNG with the sum,
draw `random.uniform(0.1, 0.95)`, add `(len(bytes) % 100) / 1000`, and clamp
with `min(0.99, max(0.01, ·))`. -/
def simulate_ai_detection (h : PyHash) (u : Int → ℚ) (audio_bytes : List Nat)
    (language : String) : ℚ :=
  let audio_hash := h.hashBytes (audio_bytes.take (min 1000 audio_bytes.length))
  let language_hash := h.hashStr language
  let base_score := u (audio_hash + language_hash)
  let size_variation : ℚ := ((audio_bytes.length % 100 : Nat) : ℚ) / 1000
  min (99 / 100) (max (1 / 100) (base_score + size_variation))

/-- Model of `generate_explanation` from `main.py`. -/
def generate_explanation (classification : String) (confidence : ℚ) (language : String)
    (audio_size_kb : ℚ) : String :=
  if classification = "AI_GENERATED" then
    if confidence > 85 / 100 then
      "High confidence AI-generated " ++ language ++ " voice detected with synthetic speech patterns."
    else if confidence > 65 / 100 then
      "Moderate confidence AI-generated " ++ language ++ " voice detected with some synthetic characteristics."
    else
      "Low confidence AI-generated " ++ language ++ " voice detected, showing minor synthetic indicators."
  else
    if confidence < 35 / 100 then
      "High confidence human " ++ language ++ " voice detected with natural speech characteristics."
    else if confidence < 1 / 2 then
      "Moderate confidence human " ++ language ++ " voice detected with authentic vocal patterns."
    else
      "Low confidence human " ++ language ++ " voice detected, showing mostly natural characteristics."

/-- Python's `round(x, 4)`, idealised over ℚ: round `x * 10000` to the nearest
integer and divide back. -/
def roundTo4 (x : ℚ) : ℚ := ((round (x * 10000) : ℤ) : ℚ) / 10000

/-- Body of the `/detect` request model (`VoiceDetectionRequest` in `main.py`). -/
structure VoiceDetectionRequest where
  language : String
  audio_format : String
  audio_base64 : String
deriving DecidableEq, Repr

/-- Body of the 200 response (`VoiceDetectionResponse` in `main.py`). -/
structure VoiceDetectionResponse where
  classification : String
  confidence_score : ℚ
  language : String
  explanation : String
deriving DecidableEq, Repr

/-- Success branch of the handler: compute the score, classify against the
0.5 threshold, render the explanation, and return the response carrying the
score rounded to 4 decimal places. -/
def mkResponse (h : PyHash) (u : Int → ℚ) (audio_bytes : List Nat)
    (language : String) : VoiceDetectionResponse :=
  let confidence_score := simulate_ai_detection h u audio_bytes language
  let classification := if confidence_score > 1 / 2 then "AI_GENERATED" else "HUMAN"
  { classification := classification
    confidence_score := roundTo4 confidence_score
    language := language
    explanation := generate_explanation classification confidence_score language
      ((audio_bytes.length : ℚ) / 1024) }

/-- Body of the `try` block of `detect_voice`: decode the base64 payload again,
raise `HTTPException(400, "Audio data is empty")` on an empty decode, and
otherwise build the response. -/
def tryBlock (h : PyHash) (u : Int → ℚ) (request : VoiceDetectionRequest) :
    Except HandlerExc VoiceDetectionResponse :=
  match b64decodeE request.audio_base64 with
  | Except.error e => Except.error e
  | Except.ok audio_bytes =>
    if audio_bytes.length = 0 then
      Except.error (HandlerExc.httpException 400 "Audio data is empty")
    else
      Except.ok (mkResponse h u audio_bytes request.language)

/-- Observable outcome of a call to the service: a 200 response, a 422
schema-validation error listing the offending fields, or an `HTTPException`
rendered by the exception handler as a status code and detail string. -/
inductive Outcome where
  | ok (resp : VoiceDetectionResponse)
  | validationError (fields : List String)
  | httpError (statusCode : Nat) (error : String)
deriving DecidableEq, Repr

/-- Starlette's `str` of an `HTTPException`, used by the catch-all
`except Exception` branch to build its 500 detail. -/
def httpExcStr (statusCode : Nat) (detail : String) : String :=
  toString statusCode ++ ": " ++ detail

/-- Model of the `detect_voice` handler: the API-key check, then the `try`
block with its `except` chain.  `except binascii.Error` yields a 400 about
base64, `except ValueError` a 400 with the exception message, and the final
`except Exception` turns any other exception — including the handler's own
`HTTPException(400, "Audio data is empty")` — into a 500. -/
def detect_voice (h : PyHash) (u : Int → ℚ) (request : VoiceDetectionRequest)
    (x_api_key : String) : Outcome :=
  if x_api_key ≠ VALID_API_KEY then Outcome.httpError 401 "Invalid API key"
  else
    match tryBlock h u request with
    | Except.ok resp => Outcome.ok resp
    | Except.error HandlerExc.binasciiError =>
        Outcome.httpError 400 "Invalid base64 encoding in audio_base64"
    | Except.error (HandlerExc.valueError msg) => Outcome.httpError 400 msg
    | Except.error (HandlerExc.httpException st d) =>
        Outcome.httpError 500 ("Internal server error: " ++ httpExcStr st d)

/-- Raw request as received by the framework, before schema validation. -/
structure RawRequest where
  language : String
  audio_format : String
  audio_base64 : String
  x_api_key : Option String
deriving DecidableEq, Repr

/-- Model of the framework-level validation of a `/detect` request: the
pydantic `Literal` checks on `language` and `audio_format`, the `min_length=1`
constraint and the `validate_base64` validator on `audio_base64`, and the
required `x-api-key` header.  Returns the list of offending fields (empty when
the request is valid). -/
def validateRequest (raw : RawRequest) : List String :=
  (if raw.language ∈ SUPPORTED_LANGUAGES then [] else ["language"]) ++
  (if raw.audio_format = "mp3" then [] else ["audio_format"]) ++
  (if 1 ≤ raw.audio_base64.length ∧ (b64decodeE raw.audio_base64).isOk = true then []
   else ["audio_base64"]) ++
  (if raw.x_api_key.isSome = true then [] else ["x-api-key"])

/-- Full pipeline for a `POST /detect` call: schema validation (422 on
failure), then the handler. -/
def processRequest (h : PyHash) (u : Int → ℚ) (raw : RawRequest) : Outcome :=
  match raw.x_api_key with
  | none => Outcome.validationError (validateRequest raw)
  | some key =>
    if validateRequest raw = [] then
      detect_voice h u ⟨raw.language, raw.audio_format, raw.audio_base64⟩ key
    else Outcome.validationError (validateRequest raw)

/-- Body produced by `http_exception_handler` in `main.py`. -/
structure ErrorBody where
  error : String
  status_code : Nat
deriving DecidableEq, Repr

/-- Model of `http_exception_handler`: renders an `HTTPException` as the JSON
body `\x7berror: detail, status_code: code\x7d`. -/
def http_exception_handler (statusCode : Nat) (detail : String) : ErrorBody :=
  { error := detail, status_code := statusCode }

/-- Confidence bands used by the specification's explanation table. -/
inductive Band where
  | high : Band
  | moderate : Band
  | low : Band
deriving DecidableEq, Repr

/-- Modelled from the spec: band selection for an AI_GENERATED classification
("(>0.85 high), (>0.65 moderate), (else low)"). -/
def aiBand (confidence : ℚ) : Band :=
  if confidence > 85 / 100 then Band.high
  else if confidence > 65 / 100 then Band.moderate
  else Band.low

/-- Modelled from the spec: band selection for a HUMAN classification
("(<0.35 high), (<0.5 moderate), (else low)"). -/
def humanBand (confidence : ℚ) : Band :=
  if confidence < 35 / 100 then Band.high
  else if confidence < 1 / 2 then Band.moderate
  else Band.low

/-- Fixed explanation templates for AI_GENERATED, keyed by band, each naming
the language. -/
def aiExplanation : Band → String → String
  | Band.high, lang =>
      "High confidence AI-generated " ++ lang ++ " voice detected with synthetic speech patterns."
  | Band.moderate, lang =>
      "Moderate confidence AI-generated " ++ lang ++ " voice detected with some synthetic characteristics."
  | Band.low, lang =>
      "Low confidence AI-generated " ++ lang ++ " voice detected, showing minor synthetic indicators."

/-- Fixed explanation templates for HUMAN, keyed by band, each naming the
language. -/
def humanExplanation : Band → String → String
  | Band.high, lang =>
      "High confidence human " ++ lang ++ " voice detected with natural speech characteristics."
  | Band.moderate, lang =>
      "Moderate confidence human " ++ lang ++ " voice detected with authentic vocal patterns."
  | Band.low, lang =>
      "Low confidence human " ++ lang ++ " voice detected, showing mostly natural characteristics."

/-- Modelled from the spec: the scoring algorithm as section 4.2 words it,
steps 1-4 — seed from the sum of the two hashes, one uniform draw in
[0.1, 0.95], perturbation (len mod 100)/1000, clamp to [0.01, 0.99]. -/
def scoreSpec (h : PyHash) (u : Int → ℚ) (bs : List Nat) (lang : String) : ℚ :=
  let seed := h.hashBytes (bs.take (min 1000 bs.length)) + h.hashStr lang
  let base_score := u seed
  let perturbation : ℚ := ((bs.length % 100 : Nat) : ℚ) / 1000
  max (1 / 100) (min (99 / 100) (base_score + perturbation))

instance instDecEqExcept {ε α : Type} [DecidableEq ε] [DecidableEq α] :
    DecidableEq (Except ε α) := fun x y =>
  match x, y with
  | Except.ok a, Except.ok b =>
      if h : a = b then Decidable.isTrue (congrArg Except.ok h)
      else Decidable.isFalse (fun hc => h (Except.ok.inj hc))
  | Except.error a, Except.error b =>
      if h : a = b then Decidable.isTrue (congrArg Except.error h)
      else Decidable.isFalse (fun hc => h (Except.error.inj hc))
  | Except.ok _, Except.error _ => Decidable.isFalse (fun hc => Except.noConfusion hc)
  | Except.error _, Except.ok _ => Decidable.isFalse (fun hc => Except.noConfusion hc)

/-! Concrete instantiations of the runtime abstractions, used by witnesses and
counterexamples.  `hA` and `hB` are two possible per-process behaviours of the
salted builtin `hash`; `uSplit` and `uHalo` are PRNG draws within the range
`random.uniform(0.1, 0.95)` can produce. -/

/-- One possible per-process hash behaviour. -/
def hA : PyHash := ⟨fun _ => 0, fun _ => 0⟩

/-- Another possible per-process hash behaviour (a different hash salt gives
the language a different hash). -/
def hB : PyHash := ⟨fun _ => 0, fun _ => 1⟩

/-- PRNG draw returning 0.2 at seed 0 and 0.8 elsewhere, within [0.1, 0.95]. -/
def uSplit : Int → ℚ := fun n => if n = 0 then 1 / 5 else 4 / 5

/-- PRNG draw constantly 0.49704, within [0.1, 0.95]. -/
def uHalo : Int → ℚ := fun _ => 6213 / 12500

/-- First min(1000, len) bytes of a 100-byte audio clip. -/
def bytes100 : List Nat := List.replicate 100 0

/-- Valid request whose payload decodes to the three bytes [0, 0, 0]. -/
def rawHalo : RawRequest := ⟨"English", "mp3", "AAAA", some VALID_API_KEY⟩

/-- Valid request whose payload "QQ==" decodes to the single byte [65]. -/
def rawQ1 : RawRequest := ⟨"English", "mp3", "QQ==", some VALID_API_KEY⟩

/-- Valid request whose payload "!QQ==" also decodes to [65]: the leading `!`
is outside the base64 alphabet and is skipped by the permissive decoder. -/
def rawQ2 : RawRequest := ⟨"English", "mp3", "!QQ==", some VALID_API_KEY⟩

/-- Request whose payload "!!!" passes the schema validator (non-empty,
decodes without an exception) but decodes to zero bytes. -/
def rawEmpty : RawRequest := ⟨"English", "mp3", "!!!", some VALID_API_KEY⟩

/-- Request with an unsupported language. -/
def rawFrench : RawRequest := ⟨"French", "mp3", "QQ==", some VALID_API_KEY⟩

/-- Request with a wrong API key. -/
def rawBadKey : RawRequest := ⟨"Tamil", "mp3", "QQ==", some "wrong_api_key"⟩

/-- Response produced for `rawHalo` in process `hA` with draw `uSplit`. -/
def respW : VoiceDetectionResponse := mkResponse hA uSplit [0, 0, 0] "English"

/-- Response produced for `rawHalo` in process `hA` with draw `uHalo`. -/
def respHalo : VoiceDetectionResponse := mkResponse hA uHalo [0, 0, 0] "English"

/-- Response produced for `rawQ1` and `rawQ2` in process `hA` with `uSplit`. -/
def respQ : VoiceDetectionResponse := mkResponse hA uSplit [65] "English"

/-! Helper lemmas. -/

lemma mkResponse_classification (h : PyHash) (u : Int → ℚ) (bs : List Nat) (lang : String) :
    (mkResponse h u bs lang).classification =
      if simulate_ai_detection h u bs lang > 1 / 2 then "AI_GENERATED" else "HUMAN" := rfl

lemma mkResponse_confidence (h : PyHash) (u : Int → ℚ) (bs : List Nat) (lang : String) :
    (mkResponse h u bs lang).confidence_score =
      roundTo4 (simulate_ai_detection h u bs lang) := rfl

lemma mkResponse_language (h : PyHash) (u : Int → ℚ) (bs : List Nat) (lang : String) :
    (mkResponse h u bs lang).language = lang := rfl

lemma validate_nil_iff (raw : RawRequest) :
    validateRequest raw = [] ↔
      raw.language ∈ SUPPORTED_LANGUAGES ∧ raw.audio_format = "mp3" ∧
        (1 ≤ raw.audio_base64.length ∧ (b64decodeE raw.audio_base64).isOk = true) ∧
        raw.x_api_key.isSome = true := by
  unfold validateRequest
  split_ifs with h1 h2 h3 h4 <;> simp_all

lemma tryBlock_ok_inv (h : PyHash) (u : Int → ℚ) (req : VoiceDetectionRequest)
    (resp : VoiceDetectionResponse) (hok : tryBlock h u req = Except.ok resp) :
    ∃ bs, b64decodeE req.audio_base64 = Except.ok bs ∧ bs.length ≠ 0 ∧
      resp = mkResponse h u bs req.language := by
  unfold tryBlock at hok
  split at hok
  next e heq => exact absurd hok (by simp)
  next bs heq =>
    split at hok
    next => exact absurd hok (by simp)
    next hlen => exact ⟨bs, heq, hlen, (Except.ok.inj hok).symm⟩

lemma processRequest_ok_inv (h : PyHash) (u : Int → ℚ) (raw : RawRequest)
    (resp : VoiceDetectionResponse) (hok : processRequest h u raw = Outcome.ok resp) :
    validateRequest raw = [] ∧ raw.x_api_key = some VALID_API_KEY ∧
      ∃ bs, b64decodeE raw.audio_base64 = Except.ok bs ∧ bs.length ≠ 0 ∧
        resp = mkResponse h u bs raw.language := by
  unfold processRequest at hok
  split at hok
  next hkey => exact absurd hok (by simp)
  next key hkey =>
    split at hok
    case isFalse hv => exact absurd hok (by simp)
    case isTrue hv =>
      refine ⟨hv, ?_⟩
      unfold detect_voice at hok
      split at hok
      next hkeq => exact absurd hok (by simp)
      next hkeq =>
        have hkv : key = VALID_API_KEY := not_not.mp hkeq
        subst hkv
        refine ⟨hkey, ?_⟩
        split at hok
        next resp2 heq =>
          cases hok
          exact tryBlock_ok_inv h u _ _ heq
        next => exact absurd hok (by simp)
        next => exact absurd hok (by simp)
        next => exact absurd hok (by simp)

lemma tryBlock_eq_of_decode_ok (h : PyHash) (u : Int → ℚ) (req : VoiceDetectionRequest)
    (bs : List Nat) (hbs : b64decodeE req.audio_base64 = Except.ok bs) :
    tryBlock h u req =
      if bs.length = 0 then Except.error (HandlerExc.httpException 400 "Audio data is empty")
      else Except.ok (mkResponse h u bs req.language) := by
  unfold tryBlock
  rw [hbs]

lemma processRequest_eq_ok (h : PyHash) (u : Int → ℚ) (raw : RawRequest) (bs : List Nat)
    (hv : validateRequest raw = []) (hkey : raw.x_api_key = some VALID_API_KEY)
    (hbs : b64decodeE raw.audio_base64 = Except.ok bs) (hlen : ¬bs.length = 0) :
    processRequest h u raw = Outcome.ok (mkResponse h u bs raw.language) := by
  unfold processRequest
  split
  next hk =>
    rw [hk] at hkey
    exact Option.noConfusion hkey
  next k hk =>
    rw [hk] at hkey
    obtain rfl := Option.some.inj hkey
    rw [if_pos hv]
    unfold detect_voice
    rw [if_neg (not_not_intro rfl)]
    rw [tryBlock_eq_of_decode_ok h u _ bs hbs, if_neg hlen]

lemma simulate_eval (h : PyHash) (u : Int → ℚ) (bs : List Nat) (lang : String) (v : ℚ)
    (hsum : u (h.hashBytes (bs.take (min 1000 bs.length)) + h.hashStr lang) +
      ((bs.length % 100 : Nat) : ℚ) / 1000 = v)
    (h1 : 1 / 100 ≤ v) (h2 : v ≤ 99 / 100) :
    simulate_ai_detection h u bs lang = v := by
  simp only [simulate_ai_detection]
  rw [hsum, max_eq_right h1, min_eq_right h2]

lemma simulate_hA_uHalo : simulate_ai_detection hA uHalo [0, 0, 0] "English" = 12501 / 25000 :=
  simulate_eval _ _ _ _ _ (by norm_num [hA, uHalo]) (by norm_num) (by norm_num)

lemma simulate_hA_uSplit3 : simulate_ai_detection hA uSplit [0, 0, 0] "English" = 203 / 1000 :=
  simulate_eval _ _ _ _ _ (by norm_num [hA, uSplit]) (by norm_num) (by norm_num)

lemma simulate_hA_uSplit100 : simulate_ai_detection hA uSplit bytes100 "English" = 1 / 5 :=
  simulate_eval _ _ _ _ _ (by norm_num [hA, uSplit, bytes100]) (by norm_num) (by norm_num)

lemma simulate_hB_uSplit100 : simulate_ai_detection hB uSplit bytes100 "English" = 4 / 5 :=
  simulate_eval _ _ _ _ _ (by norm_num [hB, uSplit, bytes100]) (by norm_num) (by norm_num)

lemma round_le_round_q {a b : ℚ} (hab : a ≤ b) : round a ≤ round b := by
  rw [round_eq, round_eq]
  exact Int.floor_le_floor (by linarith)

lemma round_q_5000 : round ((5000 : ℚ)) = 5000 := by
  norm_num

lemma roundTo4_half_iff (x : ℚ) (hne : roundTo4 x ≠ 1 / 2) :
    1 / 2 < x ↔ 1 / 2 < roundTo4 x := by
  constructor
  · intro hx
    have h1 : (5000 : ℤ) ≤ round (x * 10000) := by
      calc (5000 : ℤ) = round ((5000 : ℚ)) := round_q_5000.symm
        _ ≤ round (x * 10000) := round_le_round_q (by linarith)
    have h2 : round (x * 10000) ≠ 5000 := by
      intro hcon
      apply hne
      unfold roundTo4
      rw [hcon]
      norm_num
    have h3 : (5001 : ℤ) ≤ round (x * 10000) := by omega
    have h4 : (5001 : ℚ) ≤ ((round (x * 10000) : ℤ) : ℚ) := by exact_mod_cast h3
    unfold roundTo4
    linarith
  · intro hx
    by_contra hle
    push_neg at hle
    have h1 : round (x * 10000) ≤ 5000 := by
      calc round (x * 10000) ≤ round ((5000 : ℚ)) := round_le_round_q (by linarith)
        _ = 5000 := round_q_5000
    have h2 : ((round (x * 10000) : ℤ) : ℚ) ≤ 5000 := by exact_mod_cast h1
    unfold roundTo4 at hx
    linarith

lemma roundTo4_12501 : roundTo4 (12501 / 25000) = 1 / 2 := by
  have h1 : (12501 : ℚ) / 25000 * 10000 + 1 / 2 = 50009 / 10 := by norm_num
  have hfl : ⌊(50009 : ℚ) / 10⌋ = 5000 := by
    rw [Int.floor_eq_iff]
    norm_num
  unfold roundTo4
  rw [round_eq, h1, hfl]
  norm_num

lemma roundTo4_203 : roundTo4 (203 / 1000) = 203 / 1000 := by
  have h1 : (203 : ℚ) / 1000 * 10000 + 1 / 2 = 4061 / 2 := by norm_num
  have hfl : ⌊(4061 : ℚ) / 2⌋ = 2030 := by
    rw [Int.floor_eq_iff]
    norm_num
  unfold roundTo4
  rw [round_eq, h1, hfl]
  norm_num

lemma respHalo_classification : respHalo.classification = "AI_GENERATED" := by
  unfold respHalo
  rw [mkResponse_classification, simulate_hA_uHalo, if_pos (by norm_num : (12501 : ℚ) / 25000 > 1 / 2)]

lemma respHalo_confidence : respHalo.confidence_score = 1 / 2 := by
  unfold respHalo
  rw [mkResponse_confidence, simulate_hA_uHalo, roundTo4_12501]

lemma respW_confidence : respW.confidence_score = 203 / 1000 := by
  unfold respW
  rw [mkResponse_confidence, simulate_hA_uSplit3, roundTo4_203]

/-! Claim theorems. -/

/-- C1 (counterexample): in a run where the PRNG draw makes the unrounded
score 0.50004, the valid request `rawHalo` yields a 200 response classified
AI_GENERATED whose carried confidence_score rounds down to exactly 0.5, so the
claimed iff between the classification and "carried score > 0.5" fails. -/
theorem c1_rounded_iff_fails :
    uniformValid uHalo ∧
    processRequest hA uHalo rawHalo = Outcome.ok respHalo ∧
    ¬(respHalo.classification = "AI_GENERATED" ↔ respHalo.confidence_score > 1 / 2) := by
  refine ⟨fun n => by norm_num [uHalo], ?_, ?_⟩
  · exact processRequest_eq_ok hA uHalo rawHalo [0, 0, 0] (by decide) rfl (by decide) (by decide)
  · intro hiff
    rw [respHalo_classification, respHalo_confidence] at hiff
    exact absurd (hiff.mp rfl) (by norm_num)

/-- C1 (amended): for every 200 response whose carried (rounded)
confidence_score differs from 0.5, the classification is AI_GENERATED iff the
carried confidence_score exceeds 0.5.  (The classification is decided from the
unrounded score; only when the unrounded score lies in (0.5, 0.50005) does the
carried score collapse to exactly 0.5 while the classification is
AI_GENERATED.) -/
theorem c1_classification_iff_reported_score (h : PyHash) (u : Int → ℚ) (raw : RawRequest)
    (resp : VoiceDetectionResponse) (hok : processRequest h u raw = Outcome.ok resp)
    (hne : resp.confidence_score ≠ 1 / 2) :
    resp.classification = "AI_GENERATED" ↔ resp.confidence_score > 1 / 2 := by
  obtain ⟨-, -, bs, hbs, hlen, rfl⟩ := processRequest_ok_inv h u raw resp hok
  rw [mkResponse_confidence] at hne ⊢
  rw [mkResponse_classification]
  by_cases hgt : simulate_ai_detection h u bs raw.language > 1 / 2
  · rw [if_pos hgt]
    exact ⟨fun _ => (roundTo4_half_iff _ hne).mp hgt, fun _ => rfl⟩
  · rw [if_neg hgt]
    constructor
    · intro habs
      exact absurd habs (by decide)
    · intro hr
      exact absurd ((roundTo4_half_iff _ hne).mpr hr) hgt

/-- C1 (witness): a concrete 200 response with carried score 0.203 ≠ 0.5,
for which the amended iff holds. -/
theorem c1_classification_iff_reported_score_witness :
    processRequest hA uSplit rawHalo = Outcome.ok respW ∧
    respW.confidence_score ≠ 1 / 2 ∧
    (respW.classification = "AI_GENERATED" ↔ respW.confidence_score > 1 / 2) := by
  have hok : processRequest hA uSplit rawHalo = Outcome.ok respW :=
    processRequest_eq_ok hA uSplit rawHalo [0, 0, 0] (by decide) rfl (by decide) (by decide)
  have hne : respW.confidence_score ≠ 1 / 2 := by
    rw [respW_confidence]
    norm_num
  exact ⟨hok, hne, c1_classification_iff_reported_score hA uSplit rawHalo respW hok hne⟩

/-- C2 (code evaluated at the failing input): for a valid request whose
payload "!!!" passes the schema validator but decodes to zero bytes, the
service returns 500 "Internal server error: 400: Audio data is empty" — not
the 400 empty-audio error the claim (and the code's own
`raise HTTPException(400, "Audio data is empty")`) intends: the handler's
catch-all `except Exception` swallows the `HTTPException` and re-raises it as
a 500. -/
theorem c2_empty_audio_yields_500 (h : PyHash) (u : Int → ℚ) :
    processRequest h u rawEmpty =
      Outcome.httpError 500 "Internal server error: 400: Audio data is empty" := by
  rfl

/-- C3 (counterexample): two processes whose salted builtin `hash` assigns the
language different values produce different confidence scores for identical
audio bytes and language, even with the same PRNG algorithm; the claimed
determinism "across processes" fails. -/
theorem c3_score_differs_across_processes :
    uniformValid uSplit ∧
    simulate_ai_detection hA uSplit bytes100 "English" ≠
      simulate_ai_detection hB uSplit bytes100 "English" := by
  constructor
  · intro n
    unfold uSplit
    by_cases hn : n = 0
    · rw [if_pos hn]
      norm_num
    · rw [if_neg hn]
      norm_num
  · rw [simulate_hA_uSplit100, simulate_hB_uSplit100]
    norm_num

/-- C3 (amended): within a single process (one fixed hash salt `h` and PRNG
`u`), any two 200 responses whose payloads decode to identical audio bytes and
whose requests carry identical languages have identical confidence scores. -/
theorem c3_score_deterministic_in_process (h : PyHash) (u : Int → ℚ)
    (raw1 raw2 : RawRequest) (resp1 resp2 : VoiceDetectionResponse) (bs : List Nat)
    (hok1 : processRequest h u raw1 = Outcome.ok resp1)
    (hok2 : processRequest h u raw2 = Outcome.ok resp2)
    (hb1 : b64decodeE raw1.audio_base64 = Except.ok bs)
    (hb2 : b64decodeE raw2.audio_base64 = Except.ok bs)
    (hl : raw1.language = raw2.language) :
    resp1.confidence_score = resp2.confidence_score := by
  obtain ⟨-, -, c1, hc1, -, rfl⟩ := processRequest_ok_inv h u raw1 resp1 hok1
  obtain ⟨-, -, c2, hc2, -, rfl⟩ := processRequest_ok_inv h u raw2 resp2 hok2
  rw [hb1] at hc1
  rw [hb2] at hc2
  obtain rfl := Except.ok.inj hc1
  obtain rfl := Except.ok.inj hc2
  rw [mkResponse_confidence, mkResponse_confidence, hl]

/-- C3 (witness): two distinct base64 encodings of the same single byte, sent
in the same process, produce the same confidence score. -/
theorem c3_score_deterministic_in_process_witness :
    processRequest hA uSplit rawQ1 = Outcome.ok respQ ∧
    processRequest hA uSplit rawQ2 = Outcome.ok respQ ∧
    b64decodeE rawQ1.audio_base64 = Except.ok [65] ∧
    b64decodeE rawQ2.audio_base64 = Except.ok [65] ∧
    respQ.confidence_score = respQ.confidence_score := by
  have hok1 : processRequest hA uSplit rawQ1 = Outcome.ok respQ :=
    processRequest_eq_ok hA uSplit rawQ1 [65] (by decide) rfl (by decide) (by decide)
  have hok2 : processRequest hA uSplit rawQ2 = Outcome.ok respQ :=
    processRequest_eq_ok hA uSplit rawQ2 [65] (by decide) rfl (by decide) (by decide)
  exact ⟨hok1, hok2, by decide, by decide,
    c3_score_deterministic_in_process hA uSplit rawQ1 rawQ2 respQ respQ [65]
      hok1 hok2 (by decide) (by decide) rfl⟩

/-- C4: for every non-empty byte sequence and language, the scoring function
computes exactly the algorithm the specification states (seed = sum of the two
hashes, uniform draw, perturbation (len mod 100)/1000, clamp to [0.01, 0.99]),
and the confidence_score carried in any 200 response for those bytes is that
result rounded to 4 decimal places. -/
theorem c4_scoring_follows_spec (h : PyHash) (u : Int → ℚ) (bs : List Nat) (lang : String)
    (hne : bs ≠ []) :
    simulate_ai_detection h u bs lang = scoreSpec h u bs lang ∧
    ∀ raw resp, processRequest h u raw = Outcome.ok resp →
      b64decodeE raw.audio_base64 = Except.ok bs → raw.language = lang →
      resp.confidence_score = roundTo4 (scoreSpec h u bs lang) := by
  have hmain : simulate_ai_detection h u bs lang = scoreSpec h u bs lang := by
    unfold simulate_ai_detection scoreSpec
    rw [min_max_distrib_left]
    norm_num
  refine ⟨hmain, ?_⟩
  intro raw resp hok hbs hlang
  obtain ⟨-, -, bs2, hbs2, -, rfl⟩ := processRequest_ok_inv h u raw resp hok
  rw [hbs] at hbs2
  obtain rfl := Except.ok.inj hbs2
  rw [mkResponse_confidence, hlang, hmain]

/-- C4 (witness): the agreement instantiated at the bytes [0, 0, 0] and the
language "English". -/
theorem c4_scoring_follows_spec_witness :
    (([0, 0, 0] : List Nat) ≠ []) ∧
    (simulate_ai_detection hA uSplit [0, 0, 0] "English" =
        scoreSpec hA uSplit [0, 0, 0] "English" ∧
      ∀ raw resp, processRequest hA uSplit raw = Outcome.ok resp →
        b64decodeE raw.audio_base64 = Except.ok [0, 0, 0] → raw.language = "English" →
        resp.confidence_score = roundTo4 (scoreSpec hA uSplit [0, 0, 0] "English")) :=
  ⟨by decide, c4_scoring_follows_spec hA uSplit [0, 0, 0] "English" (by decide)⟩

/-- C5: the explanation string is exactly the fixed table lookup keyed by
classification and confidence band that the specification describes, for every
confidence, language and audio size. -/
theorem c5_explanation_is_table_lookup (confidence : ℚ) (lang : String) (kb : ℚ) :
    generate_explanation "AI_GENERATED" confidence lang kb =
      aiExplanation (aiBand confidence) lang ∧
    generate_explanation "HUMAN" confidence lang kb =
      humanExplanation (humanBand confidence) lang := by
  constructor
  · unfold generate_explanation aiBand
    rw [if_pos rfl]
    split_ifs <;> rfl
  · unfold generate_explanation humanBand
    rw [if_neg (by decide : ¬("HUMAN" = "AI_GENERATED"))]
    split_ifs <;> rfl

/-- C6: a request whose x-api-key header is missing or differs from the
configured key produces an outcome that does not depend on the scoring
runtime at all (the scoring function is never invoked), and the handler
answers any mismatched key with 401 and the body
rendered by `http_exception_handler` as error "Invalid API key",
status_code 401. -/
theorem c6_bad_key_never_scored (raw : RawRequest)
    (hbad : raw.x_api_key = none ∨ ∃ k, raw.x_api_key = some k ∧ k ≠ VALID_API_KEY) :
    (∀ h1 u1 h2 u2, processRequest h1 u1 raw = processRequest h2 u2 raw) ∧
    (∀ (h : PyHash) (u : Int → ℚ) (req : VoiceDetectionRequest) (k : String),
      k ≠ VALID_API_KEY →
        detect_voice h u req k = Outcome.httpError 401 "Invalid API key" ∧
        http_exception_handler 401 "Invalid API key" = ErrorBody.mk "Invalid API key" 401) := by
  constructor
  · intro h1 u1 h2 u2
    unfold processRequest
    split
    next hkey => rfl
    next k hkey =>
      have hk : k ≠ VALID_API_KEY := by
        rcases hbad with hnone | ⟨k2, hk2, hne2⟩
        · rw [hkey] at hnone
          exact Option.noConfusion hnone
        · rw [hkey] at hk2
          obtain rfl := Option.some.inj hk2
          exact hne2
      split
      next hv =>
        unfold detect_voice
        rw [if_pos hk, if_pos hk]
      next hv => rfl
  · intro h u req k hk
    refine ⟨?_, rfl⟩
    unfold detect_voice
    rw [if_pos hk]

/-- C6 (witness): the wrong-key request `rawBadKey` gives the same outcome
under two different scoring runtimes, and the handler answers the wrong key
with the 401 invalid-key error. -/
theorem c6_bad_key_never_scored_witness :
    processRequest hA uSplit rawBadKey = processRequest hB uHalo rawBadKey ∧
    detect_voice hA uSplit ⟨"Tamil", "mp3", "QQ=="⟩ "wrong_api_key" =
      Outcome.httpError 401 "Invalid API key" :=
  ⟨(c6_bad_key_never_scored rawBadKey (Or.inr ⟨"wrong_api_key", rfl, by decide⟩)).1
      hA uSplit hB uHalo,
   ((c6_bad_key_never_scored rawBadKey (Or.inr ⟨"wrong_api_key", rfl, by decide⟩)).2
      hA uSplit ⟨"Tamil", "mp3", "QQ=="⟩ "wrong_api_key" (by decide)).1⟩

/-- C7: a request whose language is not whitelisted, whose audio_format is not
"mp3", or whose audio_base64 is empty or fails to decode, is answered with a
validation error that names the offending field, and never with a 200. -/
theorem c7_schema_violation_rejected (h : PyHash) (u : Int → ℚ) (raw : RawRequest)
    (hbad : raw.language ∉ SUPPORTED_LANGUAGES ∨ raw.audio_format ≠ "mp3" ∨
      raw.audio_base64 = "" ∨ (b64decodeE raw.audio_base64).isOk = false) :
    processRequest h u raw = Outcome.validationError (validateRequest raw) ∧
    (raw.language ∉ SUPPORTED_LANGUAGES → "language" ∈ validateRequest raw) ∧
    (raw.audio_format ≠ "mp3" → "audio_format" ∈ validateRequest raw) ∧
    ((raw.audio_base64 = "" ∨ (b64decodeE raw.audio_base64).isOk = false) →
      "audio_base64" ∈ validateRequest raw) ∧
    (∀ resp, processRequest h u raw ≠ Outcome.ok resp) := by
  have hv : validateRequest raw ≠ [] := by
    rw [Ne, validate_nil_iff]
    rintro ⟨hl, hf, ⟨hlen, hdec⟩, -⟩
    rcases hbad with hb | hb | hb | hb
    · exact hb hl
    · exact hb hf
    · rw [hb] at hlen
      simp at hlen
    · rw [hb] at hdec
      exact Bool.noConfusion hdec
  have hpr : processRequest h u raw = Outcome.validationError (validateRequest raw) := by
    unfold processRequest
    split
    next hkey => rfl
    next k hkey => rw [if_neg hv]
  refine ⟨hpr, ?_, ?_, ?_, ?_⟩
  · intro hl
    unfold validateRequest
    rw [if_neg hl]
    simp
  · intro hf
    unfold validateRequest
    rw [if_neg hf]
    simp
  · intro hb
    have hcond : ¬(1 ≤ raw.audio_base64.length ∧ (b64decodeE raw.audio_base64).isOk = true) := by
      rcases hb with hb | hb
      · rintro ⟨hlen, -⟩
        rw [hb] at hlen
        simp at hlen
      · rintro ⟨-, hdec⟩
        rw [hb] at hdec
        exact Bool.noConfusion hdec
    unfold validateRequest
    rw [if_neg hcond]
    simp
  · intro resp hcon
    rw [hpr] at hcon
    exact Outcome.noConfusion hcon

/-- C7 (witness): the unsupported language "French" is rejected with a
validation error naming the language field. -/
theorem c7_schema_violation_rejected_witness :
    (rawFrench.language ∉ SUPPORTED_LANGUAGES ∨ rawFrench.audio_format ≠ "mp3" ∨
      rawFrench.audio_base64 = "" ∨ (b64decodeE rawFrench.audio_base64).isOk = false) ∧
    (processRequest hA uSplit rawFrench = Outcome.validationError (validateRequest rawFrench) ∧
      (rawFrench.language ∉ SUPPORTED_LANGUAGES → "language" ∈ validateRequest rawFrench) ∧
      (rawFrench.audio_format ≠ "mp3" → "audio_format" ∈ validateRequest rawFrench) ∧
      ((rawFrench.audio_base64 = "" ∨ (b64decodeE rawFrench.audio_base64).isOk = false) →
        "audio_base64" ∈ validateRequest rawFrench) ∧
      (∀ resp, processRequest hA uSplit rawFrench ≠ Outcome.ok resp)) :=
  ⟨Or.inl (by decide), c7_schema_violation_rejected hA uSplit rawFrench (Or.inl (by decide))⟩

/-- C8: every 200 response echoes the request's language field unchanged. -/
theorem c8_response_echoes_language (h : PyHash) (u : Int → ℚ) (raw : RawRequest)
    (resp : VoiceDetectionResponse) (hok : processRequest h u raw = Outcome.ok resp) :
    resp.language = raw.language := by
  obtain ⟨-, -, bs, -, -, rfl⟩ := processRequest_ok_inv h u raw resp hok
  rfl

/-- C8 (witness): the echo instantiated at a concrete valid request. -/
theorem c8_response_echoes_language_witness :
    processRequest hA uSplit rawQ1 = Outcome.ok respQ ∧ respQ.language = rawQ1.language := by
  have hok : processRequest hA uSplit rawQ1 = Outcome.ok respQ :=
    processRequest_eq_ok hA uSplit rawQ1 [65] (by decide) rfl (by decide) (by decide)
  exact ⟨hok, c8_response_echoes_language hA uSplit rawQ1 respQ hok⟩

/-- C9: if a request body passes the model's base64 validator (so the decode
performed during validation succeeded), the handler's second decode of the
same string yields the same bytes without an exception, and the handler can
never answer with the 400 "Invalid base64 encoding in audio_base64" error:
that branch is unreachable. -/
theorem c9_invalid_b64_branch_unreachable (h : PyHash) (u : Int → ℚ) (raw : RawRequest)
    (hv : validateRequest raw = []) :
    ∃ bs, b64decodeE raw.audio_base64 = Except.ok bs ∧
      ∀ key, detect_voice h u ⟨raw.language, raw.audio_format, raw.audio_base64⟩ key ≠
        Outcome.httpError 400 "Invalid base64 encoding in audio_base64" := by
  have hdec : (b64decodeE raw.audio_base64).isOk = true :=
    ((validate_nil_iff raw).mp hv).2.2.1.2
  obtain ⟨bs, hbs⟩ : ∃ bs, b64decodeE raw.audio_base64 = Except.ok bs := by
    cases hb : b64decodeE raw.audio_base64 with
    | ok bs => exact ⟨bs, rfl⟩
    | error e =>
      rw [hb] at hdec
      exact Bool.noConfusion hdec
  refine ⟨bs, hbs, ?_⟩
  intro key
  unfold detect_voice
  split
  case isTrue => decide
  case isFalse =>
    rw [tryBlock_eq_of_decode_ok h u _ bs hbs]
    by_cases hlen : bs.length = 0
    · rw [if_pos hlen]
      intro hcon
      have : (500 : Nat) = 400 := (Outcome.httpError.inj hcon).1
      exact absurd this (by decide)
    · rw [if_neg hlen]
      intro hcon
      exact Outcome.noConfusion hcon

/-- C9 (witness): the unreachability instantiated at a concrete request that
passes validation. -/
theorem c9_invalid_b64_branch_unreachable_witness :
    validateRequest rawQ1 = [] ∧
    (∃ bs, b64decodeE rawQ1.audio_base64 = Except.ok bs ∧
      ∀ key, detect_voice hA uSplit ⟨rawQ1.language, rawQ1.audio_format, rawQ1.audio_base64⟩
          key ≠ Outcome.httpError 400 "Invalid base64 encoding in audio_base64") :=
  ⟨by decide, c9_invalid_b64_branch_unreachable hA uSplit rawQ1 (by decide)⟩

/-- C10: the non-empty payload "!!!" — all of whose characters the permissive
decoder discards — passes the schema validator yet decodes to zero bytes, and
on it the handler's try block takes the empty-audio rejection path (raising
`HTTPException(400, "Audio data is empty")`): that path is reachable. -/
theorem c10_empty_audio_path_reachable :
    validateRequest rawEmpty = [] ∧
    rawEmpty.audio_base64 ≠ "" ∧
    b64decodeE rawEmpty.audio_base64 = Except.ok [] ∧
    tryBlock hA uSplit ⟨rawEmpty.language, rawEmpty.audio_format, rawEmpty.audio_base64⟩ =
      Except.error (HandlerExc.httpException 400 "Audio data is empty") := by
  refine ⟨by decide, by decide, by decide, by decide⟩

end VoiceAPI
